import Mathlib

/-!
# A shallow embedding of TypedJSON's deserializer

This file embeds the deserialization engine of the TypedJSON repository
(`src/typedjson/deserializer.ts`, with `helpers.ts` and `options-base.ts`)
into Lean 4 and proves properties of the embedded code.

Modelling conventions:
* JavaScript runtime values are the inductive `Value`.  Numbers are `JSNum`
  (an integer or NaN): JSON numbers are finite, and no property proved here
  depends on non-integral floating point values, so fractional values and
  infinities are folded into NaN by the string-to-number model (noted at
  `strToNumber`).
* Errors thrown with `throw new TypeError(...)` become `Except.error` with a
  structured `JSErr` carrying the dynamic parts of the message; errors passed
  to the configurable error handler are collected in a list (the second
  component of `ConvOut`), modelling the default handler, which logs and
  returns.
* The mutually recursive converter methods are modelled as a fuel-indexed
  family `convs` (structural recursion on the fuel), with wrappers carrying
  the source names.  Exhausted fuel is the artificial `JSErr.outOfFuel`;
  every concrete statement below supplies ample fuel.
* Object identity: conversion always builds fresh objects, so two object
  values occurring as distinct Map keys / Set members are never identical;
  `jsSameValueZero` therefore compares primitives structurally and
  object-like values as always-distinct.
-/

/-- A JavaScript number: an integer or NaN (see the module comment). -/
inductive JSNum where
| int (i : Int)
| nan
deriving DecidableEq, Repr

/-- The fixed-width typed-array variants handled by `convertSingleValue`
(the source has branches exactly for these six). -/
inductive TAKind where
| f32
| f64
| u8
| u8c
| u16
| u32
deriving DecidableEq, Repr

/-- A user-defined class constructor: its name, its instance / static method
names (the parts of a class the deserializer inspects), and, for a `derived`
class, the parent of its prototype chain.  The chain of a `base` class ends
at `Object`. -/
inductive ClassCtor where
| base (name : String) (instanceMethods staticMethods : List String)
| derived (name : String) (instanceMethods staticMethods : List String)
    (parent : ClassCtor)
deriving DecidableEq, Repr

/-- A constructor (a JavaScript `Function` used as a type): the built-ins the
deserializer compares against, plus user classes. -/
inductive Ctor where
| number
| string
| boolean
| date
| float32Array
| float64Array
| uint8Array
| uint8ClampedArray
| uint16Array
| uint32Array
| arrayBuffer
| dataView
| array
| set
| map
| object
| cls (c : ClassCtor)
deriving DecidableEq, Repr

def ClassCtor.className : ClassCtor → String
| .base n _ _ => n
| .derived n _ _ _ => n

/-- `nameof(fn)` of `helpers.ts` applied to a constructor. -/
def ctorName : Ctor → String
| .number => "Number"
| .string => "String"
| .boolean => "Boolean"
| .date => "Date"
| .float32Array => "Float32Array"
| .float64Array => "Float64Array"
| .uint8Array => "Uint8Array"
| .uint8ClampedArray => "Uint8ClampedArray"
| .uint16Array => "Uint16Array"
| .uint32Array => "Uint32Array"
| .arrayBuffer => "ArrayBuffer"
| .dataView => "DataView"
| .array => "Array"
| .set => "Set"
| .map => "Map"
| .object => "Object"
| .cls c => c.className

/-- The constructors of a user class's prototype chain, the class first,
ending at the parent of its `base`. -/
def classChain : ClassCtor → List ClassCtor
| .base n im sm => [.base n im sm]
| .derived n im sm p => .derived n im sm p :: classChain p

/-- The prototype chain of a constructor, itself first.  Every chain ends at
`Object` (the intermediate intrinsic prototypes of the built-ins, such as
%TypedArray%, are not denotable in the source and are elided). -/
def protoChain : Ctor → List Ctor
| .cls c => (classChain c).map Ctor.cls ++ [.object]
| .object => [.object]
| c => [c, .object]

/-- `isSubtypeOf(A, B)` of `helpers.ts`: `A === B || A.prototype instanceof B`,
i.e. `B` occurs in `A`'s prototype chain. -/
def isSubtypeOf (A B : Ctor) : Bool :=
  (protoChain A).contains B

def taCtor : TAKind → Ctor
| .f32 => .float32Array
| .f64 => .float64Array
| .u8 => .uint8Array
| .u8c => .uint8ClampedArray
| .u16 => .uint16Array
| .u32 => .uint32Array

def taName (k : TAKind) : String := ctorName (taCtor k)

/-- A JavaScript runtime value, as far as the deserializer distinguishes
values.  `obj none` is a plain object, `obj (some c)` an instance of user
class `c`. -/
inductive Value where
| undefined
| null
| num (n : JSNum)
| str (s : String)
| bool (b : Bool)
| arr (elems : List Value)
| obj (ctor : Option ClassCtor) (fields : List (String × Value))
| date (time : JSNum)
| typedArr (kind : TAKind) (elems : List JSNum)
| arrayBuf (units : List Nat)
| dataView (units : List Nat)
| mapVal (entries : List (Value × Value))
| setVal (elems : List Value)

/-- `typeof`. -/
def jsTypeof : Value → String
| .undefined => "undefined"
| .null => "object"
| .num _ => "number"
| .str _ => "string"
| .bool _ => "boolean"
| _ => "object"

/-- JavaScript truthiness. -/
def jsTruthy : Value → Bool
| .undefined => false
| .null => false
| .num (.int i) => i != 0
| .num .nan => false
| .str s => s != ""
| .bool b => b
| _ => true

/-- `isValueDefined` of `helpers.ts`: neither `undefined` nor `null`. -/
def isValueDefined : Value → Bool
| .undefined => false
| .null => false
| _ => true

def isNullValue : Value → Bool
| .null => true
| _ => false

def isArrValue : Value → Bool
| .arr _ => true
| _ => false

/-- `v.constructor`; `none` when reading it would throw (null/undefined). -/
def ctorOfValue : Value → Option Ctor
| .undefined => none
| .null => none
| .num _ => some .number
| .str _ => some .string
| .bool _ => some .boolean
| .arr _ => some .array
| .obj none _ => some .object
| .obj (some c) _ => some (.cls c)
| .date _ => some .date
| .typedArr k _ => some (taCtor k)
| .arrayBuf _ => some .arrayBuffer
| .dataView _ => some .dataView
| .mapVal _ => some .map
| .setVal _ => some .set

def ctorNameOfValue (v : Value) : String :=
  match ctorOfValue v with
  | some c => ctorName c
  | none => "undefined"

/-- `sourceObject ? nameof(sourceObject.constructor) : "undefined"` — note the
truthiness test, which sends falsy primitives to `"undefined"` too. -/
def srcTypeNameForDebug (v : Value) : String :=
  if jsTruthy v then ctorNameOfValue v else "undefined"

/-- `a instanceof C` for a value: false for primitives, otherwise membership
of `C` in the prototype chain of the value's constructor. -/
def jsInstanceOf (v : Value) (C : Ctor) : Bool :=
  match v with
  | .arr _ | .obj _ _ | .date _ | .typedArr _ _ | .arrayBuf _ | .dataView _
  | .mapVal _ | .setVal _ =>
    match ctorOfValue v with
    | some c => (protoChain c).contains C
    | none => false
  | _ => false

/-- First-match association-list update with JavaScript object/Map semantics:
an existing key keeps its position and is overwritten, a new key is appended. -/
def alSet {κ α : Type} [BEq κ] (m : List (κ × α)) (k : κ) (v : α) :
    List (κ × α) :=
  if m.any (fun e => e.1 == k) then
    m.map (fun e => if e.1 == k then (e.1, v) else e)
  else m ++ [(k, v)]

def alGet {κ α : Type} [BEq κ] (m : List (κ × α)) (k : κ) : Option α :=
  (m.find? (fun e => e.1 == k)).map (fun e => e.2)

/-- SameValueZero, the key/membership equality of JS `Map` and `Set`.
Primitives compare structurally (with NaN equal to NaN); object-like values
compare by identity, and since the deserializer only ever inserts freshly
created objects, two such values are never identical (module comment). -/
def jsSameValueZero : Value → Value → Bool
| .undefined, .undefined => true
| .null, .null => true
| .num a, .num b => a == b
| .str a, .str b => a == b
| .bool a, .bool b => a == b
| _, _ => false

/-- `Map.prototype.set`. -/
def mapSet (entries : List (Value × Value)) (k v : Value) :
    List (Value × Value) :=
  if entries.any (fun e => jsSameValueZero e.1 k) then
    entries.map (fun e => if jsSameValueZero e.1 k then (e.1, v) else e)
  else entries ++ [(k, v)]

/-- `Set.prototype.add`. -/
def setAdd (elems : List Value) (v : Value) : List Value :=
  if elems.any (fun e => jsSameValueZero e v) then elems else elems ++ [v]

/-- Own-property read `v[k]`, `undefined` when absent; only object fields
carry own data properties relevant to the engine (array index and string
index properties are elided — no code path below reads them). -/
def jsGetOwn (v : Value) (k : String) : Value :=
  match v with
  | .obj _ fields => (alGet fields k).getD .undefined
  | _ => .undefined

/-- Property read `v[k]` as an operation: reading from `null`/`undefined`
throws a `TypeError`. -/
def jsGetProp (v : Value) (k : String) : Except String Value :=
  match v with
  | .null => .error ("Cannot read properties of null (reading " ++ k ++ ")")
  | .undefined =>
    .error ("Cannot read properties of undefined (reading " ++ k ++ ")")
  | _ => .ok (jsGetOwn v k)

/-- The element sequence `v.forEach` iterates, `none` when `v.forEach` is not
a function.  Arrays, Sets and Maps have `forEach` (a Map's callback receives
the entry values). -/
def jsForEachable : Value → Option (List Value)
| .arr xs => some xs
| .setVal xs => some xs
| .mapVal es => some (es.map (fun e => e.2))
| _ => none

/-- `Object.keys(v)` with the associated values, for the untyped-passthrough
walk.  Arrays enumerate their index properties. -/
def objOwnFields : Value → List (String × Value)
| .obj _ fields => fields
| .arr xs => xs.enum.map (fun e => (toString e.1, e.2))
| _ => []

/-- `ToNumber` as the global `isNaN` coerces: integers-as-strings parse,
fractional and exotic string forms are folded into NaN (module comment), and
object-like values coerce to NaN (the single-element-array corner of
`ToPrimitive` is elided — no claim exercises it). -/
def strToNumber (s : String) : JSNum :=
  let t := s.trim
  if t = "" then .int 0
  else
    match t.toInt? with
    | some i => .int i
    | none => .nan

def toNumber : Value → JSNum
| .undefined => .nan
| .null => .int 0
| .bool b => .int (if b then 1 else 0)
| .num j => j
| .str s => strToNumber s
| _ => .nan

/-- The global `isNaN` (coercing). -/
def jsIsNaN (v : Value) : Bool :=
  match toNumber v with
  | .nan => true
  | .int _ => false

/-- `~~value`: ToInt32. -/
def toInt32 (j : JSNum) : Int :=
  match j with
  | .nan => 0
  | .int i => (i + 2 ^ 31) % 2 ^ 32 - 2 ^ 31

/-- The element stored by each typed-array constructor for `~~value`
(`new Uint8Array(source.map(v => ~~v))` etc.); the float variants store the
coerced number (float32 rounding elided). -/
def taStore (k : TAKind) (v : Value) : JSNum :=
  match k with
  | .f32 | .f64 => toNumber v
  | .u8 => .int ((toInt32 (toNumber v)) % 2 ^ 8)
  | .u8c => .int (min 255 (max 0 (toInt32 (toNumber v))))
  | .u16 => .int ((toInt32 (toNumber v)) % 2 ^ 16)
  | .u32 => .int ((toInt32 (toNumber v)) % 2 ^ 32)

def buildTypedElems (k : TAKind) (xs : List Value) : List JSNum :=
  xs.map (taStore k)

/-- `_stringToArrayBuffer`: two bytes per character, `charCodeAt` units
(UTF-16 surrogate splitting of astral characters elided). -/
def stringToUnits (s : String) : List Nat :=
  s.data.map (fun c => c.toNat % 2 ^ 16)

/-- Days from the epoch of a civil date (positive years only; callers below
guarantee a four-digit year). -/
def daysFromCivil (y m d : Nat) : Int :=
  let yAdj : Int := if m ≤ 2 then (y : Int) - 1 else (y : Int)
  let era : Int := yAdj / 400
  let yoe : Int := yAdj - era * 400
  let mp : Int := ((m : Int) + 9) % 12
  let doy : Int := (153 * mp + 2) / 5 + (d : Int) - 1
  let doe : Int := yoe * 365 + yoe / 4 - yoe / 100 + doy
  era * 146097 + doe - 719468

def digitVal (c : Char) : Nat := c.toNat - 48

/-- The host's `new Date(string)` parse, simplified: a `"YYYY-MM-DD"` ISO
calendar date parses to its UTC midnight timestamp, anything else is an
Invalid Date (NaN time value).  The host accepts further ISO forms (with a
time part) and legacy formats; none of the statements below depend on those. -/
def parseIsoChars : List Char → JSNum
| [y1, y2, y3, y4, '-', m1, m2, '-', d1, d2] =>
  if (y1.isDigit && y2.isDigit && y3.isDigit && y4.isDigit && m1.isDigit &&
      m2.isDigit && d1.isDigit && d2.isDigit) then
    let y := ((digitVal y1 * 10 + digitVal y2) * 10 + digitVal y3) * 10 +
      digitVal y4
    let m := digitVal m1 * 10 + digitVal m2
    let d := digitVal d1 * 10 + digitVal d2
    if 1 ≤ m && m ≤ 12 && 1 ≤ d && d ≤ 31 then
      .int (86400000 * daysFromCivil y m d)
    else .nan
  else .nan
| _ => .nan

def jsDateParse (s : String) : JSNum := parseIsoChars s.data

/-- `sourceObject > 0` for a number. -/
def jsGtZero : JSNum → Bool
| .int i => 0 < i
| .nan => false

/-- `${x}` string interpolation, as far as error messages need it. -/
def jsDisplayString : Value → String
| .undefined => "undefined"
| .null => "null"
| .num (.int i) => toString i
| .num .nan => "NaN"
| .str s => s
| .bool b => if b then "true" else "false"
| .obj _ _ => "[object Object]"
| _ => "object"

/-! ## Options (`options-base.ts`) -/

/-- `OptionsBase`.  A present-but-`undefined` `preserveNull` is folded into
absence: `getOptionValue` tests `options[key] != null`, which identifies the
two. -/
structure OptionsBase where
  preserveNull : Option Bool := none
deriving DecidableEq, Repr

/-- `mergeOptions(existing, moreSpecific)`. -/
def mergeOptions (existing moreSpecific : Option OptionsBase) :
    Option OptionsBase :=
  match moreSpecific with
  | none => existing
  | some m =>
    some ⟨match m.preserveNull with
          | some b => some b
          | none =>
            match existing with
            | some e => e.preserveNull
            | none => none⟩

/-- `getOptionValue('preserveNull', options)` (default `false`). -/
def getPreserveNull (options : Option OptionsBase) : Bool :=
  match options with
  | some o => o.preserveNull.getD false
  | none => false

/-! ## Errors

Every constructor below but `outOfFuel` models a `TypeError` the engine
creates (each constructor is one throw/report site of `deserializer.ts`, the
payloads being the dynamic parts of its message) or an error a user callback
throws (`userError`). -/

inductive JSErr where
| notAnObject (objectName : String)
| invalidCallback (paramName : String)
| missingConverter (memberName : String)
| missingRequired (memberName : String)
| initializerReturnedNothing (objectName : String)
| initializerWrongType (objectName : String)
| invalidHook (hookName : String)
| typeMismatch (targetType expectedSource actualSource memberName : String)
| genericMismatch (expectedName actualName memberName : String)
| arrayMissingElementCtor (memberName : String)
| setMissingElementCtor (memberName : String)
| mapMissingKeyCtor (memberName : String)
| mapMissingValueCtor (memberName : String)
| jsTypeError (message : String)
| userError (message : String)
| outOfFuel
deriving DecidableEq, Repr

/-- The outcome of running a converter: the returned value or the thrown
error, together with the errors passed to the error handler during the run
(the handler is the default logging one, see the module comment). -/
abbrev ConvOut (α : Type) := Except JSErr α × List JSErr

/-! ## Metadata (the registry the engine reads)

`JsonObjectMetadata` itself lives in the excluded metadata-registration
subsystem (`metadata.ts` is not among the given sources); these records hold
exactly the fields `deserializer.ts` reads from it, shaped after §3 "Class
Metadata" / "Member Descriptor" of the specification. -/

structure MemberMetadata where
  key : String
  ctorRef : Option Ctor := none
  elementType : Option (List Ctor) := none
  keyType : Option Ctor := none
  isRequired : Bool := false
  options : Option OptionsBase := none
  deserializer : Option (Value → Except JSErr Value) := none

structure ClassMetadata where
  classType : Ctor
  dataMembers : List (String × MemberMetadata) := []
  knownTypes : List Ctor := []
  isExplicitlyMarked : Bool := false
  initializerCallback : Option (Value → Value → Except JSErr Value) := none
  onDeserializedMethodName : Option String := none
  options : Option OptionsBase := none
  registeredName : Option String := none

/-- A known-types map (`Map<string, Function>`), insertion-ordered. -/
abbrev KnownTypes := List (String × Ctor)

def ktGet (m : KnownTypes) (k : String) : Option Ctor := alGet m k

/-- An argument a JavaScript caller hands a policy setter: a function, or a
non-callable value (which is what the setters' `typeof` guards test for). -/
inductive MaybeCallable (α : Type) where
| fn (f : α)
| notCallable (v : Value)

/-- The `Deserializer` engine state.  `registry` stands for the process-wide
`JsonObjectMetadata.getFromConstructor`.  The type resolver and error handler
fields hold functions only, because their setters validate before storing and
the constructor installs functions; the name resolver has no such guard, so
its field can hold a non-callable. -/
structure Deserializer where
  options : Option OptionsBase := none
  typeResolver : Value → KnownTypes → Option Ctor
  nameResolver : Option (MaybeCallable (Ctor → String)) := none
  errorHandler : JSErr → Unit := fun _ => ()
  registry : Ctor → Option ClassMetadata

/-- The constructor-installed type resolver: read the `__type` discriminator
and look it up (a falsy discriminator skips the lookup; the map is
string-keyed, so a truthy non-string finds nothing). -/
def defaultTypeResolver (sourceObject : Value) (knownTypes : KnownTypes) :
    Option Ctor :=
  match jsGetOwn sourceObject "__type" with
  | .str s => if s == "" then none else ktGet knownTypes s
  | _ => none

def mkDeserializer (registry : Ctor → Option ClassMetadata) : Deserializer :=
  { typeResolver := defaultTypeResolver, registry := registry }

/-- `setNameResolver`: no validation — the argument is stored as given. -/
def setNameResolver (d : Deserializer)
    (nameResolverCallback : MaybeCallable (Ctor → String)) :
    Except JSErr Deserializer :=
  .ok { d with nameResolver := some nameResolverCallback }

/-- `setTypeResolver`: throws for a non-callable, else installs it. -/
def setTypeResolver (d : Deserializer)
    (typeResolverCallback : MaybeCallable (Value → KnownTypes → Option Ctor)) :
    Except JSErr Deserializer :=
  match typeResolverCallback with
  | .notCallable _ => .error (.invalidCallback "typeResolverCallback")
  | .fn f => .ok { d with typeResolver := f }

/-- `setErrorHandler`: throws for a non-callable, else installs it. -/
def setErrorHandler (d : Deserializer)
    (errorHandlerCallback : MaybeCallable (JSErr → Unit)) :
    Except JSErr Deserializer :=
  match errorHandlerCallback with
  | .notCallable _ => .error (.invalidCallback "errorHandlerCallback")
  | .fn f => .ok { d with errorHandler := f }

/-- `retrievePreserveNull`. -/
def retrievePreserveNull (d : Deserializer)
    (memberOptions : Option OptionsBase) : Bool :=
  getPreserveNull (mergeOptions d.options memberOptions)

/-- `_isDirectlyDeserializableNativeType`. -/
def isDirectlyDeserializableNativeType (c : Ctor) : Bool :=
  c == .number || c == .string || c == .boolean

/-- The key under which `_createKnownTypesMap` and `_mergeKnownTypes` file a
constructor when a name resolver is installed: calling a truthy non-callable
throws, a falsy one fails the `if (this._nameResolver)` test and the fallback
key is used. -/
def nameResolverKey (d : Deserializer) (fallback : String) (c : Ctor) :
    Except JSErr String :=
  match d.nameResolver with
  | some (.fn f) => .ok (f c)
  | some (.notCallable v) =>
    if jsTruthy v then .error (.jsTypeError "this._nameResolver is not a function")
    else .ok fallback
  | none => .ok fallback

/-- The fallback key of `_createKnownTypesMap` when no name resolver is
installed: the registered name of an explicitly marked class (when truthy),
else the constructor's own name. -/
def knownTypeFallbackName (d : Deserializer) (c : Ctor) : String :=
  match d.registry c with
  | some meta =>
    if meta.isExplicitlyMarked then
      match meta.registeredName with
      | some n => if n == "" then ctorName c else n
      | none => ctorName c
    else ctorName c
  | none => ctorName c

/-- The `knowTypes.forEach` loop of `_createKnownTypesMap`. -/
def createKnownTypesMapFrom (d : Deserializer) (acc : KnownTypes) :
    List Ctor → Except JSErr KnownTypes
| [] => .ok acc
| c :: rest =>
  match nameResolverKey d (knownTypeFallbackName d c) c with
  | .error e => .error e
  | .ok k => createKnownTypesMapFrom d (alSet acc k c) rest

/-- `_createKnownTypesMap`: keyed by the name resolver when installed, else by
`knownTypeFallbackName`. -/
def createKnownTypesMap (d : Deserializer) (knownTypes : List Ctor) :
    Except JSErr KnownTypes :=
  createKnownTypesMapFrom d [] knownTypes

/-- The inner `knownTypes.forEach` loop of `_mergeKnownTypes`: refile each
entry, re-keying through the name resolver when one is installed. -/
def mergeEntries (d : Deserializer) (acc : KnownTypes) :
    KnownTypes → Except JSErr KnownTypes
| [] => .ok acc
| e :: rest =>
  match nameResolverKey d e.1 e.2 with
  | .error err => .error err
  | .ok k => mergeEntries d (alSet acc k e.2) rest

def mergeKnownTypesFrom (d : Deserializer) (acc : KnownTypes) :
    List KnownTypes → Except JSErr KnownTypes
| [] => .ok acc
| m :: rest =>
  match mergeEntries d acc m with
  | .error e => .error e
  | .ok acc1 => mergeKnownTypesFrom d acc1 rest

/-- `_mergeKnownTypes`: refile every entry of every map into one, later
entries overriding earlier ones on a key collision. -/
def mergeKnownTypes (d : Deserializer) (maps : List KnownTypes) :
    Except JSErr KnownTypes :=
  mergeKnownTypesFrom d [] maps

/-- Steps 1–2 of `convertAsObject` after the object guard: fetch the expected
type's metadata and merge the scope's known types with the metadata's own. -/
def scopeKnownTypes (d : Deserializer) (selfConstructor : Ctor)
    (knownTypes : KnownTypes) : Except JSErr KnownTypes :=
  match d.registry selfConstructor with
  | some meta =>
    match createKnownTypesMap d meta.knownTypes with
    | .error e => .error e
    | .ok fromMeta => mergeKnownTypes d [knownTypes, fromMeta]
  | none => .ok knownTypes

/-- Step 3 of `convertAsObject`: consult the type resolver on the source
against the merged known types; a hint that is a subtype of (or equal to) the
expected type replaces it, re-fetching metadata and merging the subtype's own
known types; any other hint is ignored without an error. -/
def resolveHint (d : Deserializer) (sourceObject : Value)
    (expectedSelfType : Ctor) (knownTypeConstructors : KnownTypes) :
    Except JSErr (Ctor × Option ClassMetadata × KnownTypes) :=
  match d.typeResolver sourceObject knownTypeConstructors with
  | some typeFromTypeHint =>
    if isSubtypeOf typeFromTypeHint expectedSelfType then
      match d.registry typeFromTypeHint with
      | some meta =>
        match createKnownTypesMap d meta.knownTypes with
        | .error e => .error e
        | .ok fromMeta =>
          match mergeKnownTypes d [knownTypeConstructors, fromMeta] with
          | .error e => .error e
          | .ok merged => .ok (typeFromTypeHint, some meta, merged)
      | none => .ok (typeFromTypeHint, none, knownTypeConstructors)
    else .ok (expectedSelfType, d.registry expectedSelfType, knownTypeConstructors)
  | none => .ok (expectedSelfType, d.registry expectedSelfType, knownTypeConstructors)

/-! ## Scope type info and the per-element folds -/

/-- `IScopeTypeInfo`. -/
structure IScopeTypeInfo where
  selfConstructor : Ctor
  elementConstructor : Option (List Ctor) := none
  keyConstructor : Option Ctor := none
  knownTypes : KnownTypes := []

/-- The body of `convertAsArray`'s per-element callback: convert, and on a
throw report the error and fill the slot with `undefined`. -/
def runCatching (step : ConvOut Value) : Value × List JSErr :=
  match step with
  | (.ok v, log) => (v, log)
  | (.error e, log) => (.undefined, log ++ [e])

/-- The `sourceObject.map(...)` loop of `convertAsArray`, parameterized over
the element conversion. -/
def arrayElemsFold (step : Value → ConvOut Value) :
    List Value → List Value × List JSErr
| [] => ([], [])
| x :: xs =>
  let (v, log) := runCatching (step x)
  let (vs, logs) := arrayElemsFold step xs
  (v :: vs, log ++ logs)

/-- The `sourceObject.forEach(...)` loop of `convertAsSet`: a throwing element
is reported and skipped (`step` receives the running index for the debug
name). -/
def setElemsFold (step : Nat → Value → ConvOut Value) :
    Nat → List Value → List Value → List Value × List JSErr
| _, acc, [] => (acc, [])
| i, acc, x :: xs =>
  match step i x with
  | (.ok v, log) =>
    let (r, logs) := setElemsFold step (i + 1) (setAdd acc v) xs
    (r, log ++ logs)
  | (.error e, log) =>
    let (r, logs) := setElemsFold step (i + 1) acc xs
    (r, log ++ (e :: logs))

/-- The body of `convertAsMap`'s per-pair callback: read and convert the key
first; an undefined/null key skips the pair silently; a throw anywhere in the
pair is reported and skips the pair. `none` means no entry is added. -/
def mapPairOutcome (stepK : Value → ConvOut Value)
    (stepV : Value → Value → ConvOut Value) (element : Value) :
    Option (Value × Value) × List JSErr :=
  match jsGetProp element "key" with
  | .error msg => (none, [.jsTypeError msg])
  | .ok rawKey =>
    match stepK rawKey with
    | (.error e, logK) => (none, logK ++ [e])
    | (.ok key, logK) =>
      if isValueDefined key then
        match jsGetProp element "value" with
        | .error msg => (none, logK ++ [.jsTypeError msg])
        | .ok rawValue =>
          match stepV key rawValue with
          | (.error e, logV) => (none, logK ++ logV ++ [e])
          | (.ok v, logV) => (some (key, v), logK ++ logV)
      else (none, logK)

/-- The `sourceObject.forEach(...)` loop of `convertAsMap`. -/
def mapEntriesFold (stepK : Value → ConvOut Value)
    (stepV : Value → Value → ConvOut Value) :
    List Value → List (Value × Value) → List (Value × Value) × List JSErr
| [], acc => (acc, [])
| el :: els, acc =>
  match mapPairOutcome stepK stepV el with
  | (some (k, v), log) =>
    let (r, logs) := mapEntriesFold stepK stepV els (mapSet acc k v)
    (r, log ++ logs)
  | (none, log) =>
    let (r, logs) := mapEntriesFold stepK stepV els acc
    (r, log ++ logs)

/-- The `dataMembers.forEach(...)` loop of `convertAsObject`'s strong-typed
branch, parameterized over the per-member revival `step` (which throws out of
the whole object conversion — the loop has no try/catch): a defined revived
value (or preserved null) is staged under the member's declared key, an
undefined one on a required member reports `MissingRequiredMember`. -/
def membersFold (d : Deserializer) (classOptions : Option OptionsBase)
    (className : String) (step : String → MemberMetadata → ConvOut Value) :
    List (String × MemberMetadata) → List (String × Value) →
    ConvOut (List (String × Value))
| [], staged => (.ok staged, [])
| (propKey, memberMetadata) :: rest, staged =>
  let memberNameForDebug := className ++ "." ++ propKey
  match step propKey memberMetadata with
  | (.error e, log) => (.error e, log)
  | (.ok revivedValue, log) =>
    let memberOptions := mergeOptions classOptions memberMetadata.options
    let keep := isValueDefined revivedValue ||
      (retrievePreserveNull d memberOptions && isNullValue revivedValue)
    let staged1 :=
      if keep then alSet staged memberMetadata.key revivedValue else staged
    let log1 :=
      if !keep && memberMetadata.isRequired then
        [JSErr.missingRequired memberNameForDebug]
      else []
    let (r, logs) := membersFold d classOptions className step rest staged1
    (r, log ++ log1 ++ logs)

/-- The `Object.keys(sourceObject).forEach(...)` loop of the untyped
passthrough branch: each own value's constructor is read (throwing for
null/undefined values), the value converted against it, and the result —
defined or not — assigned onto the plain target. -/
def passthroughFold (step : String → Ctor → Value → ConvOut Value) :
    List (String × Value) → List (String × Value) →
    ConvOut (List (String × Value))
| [], target => (.ok target, [])
| (sourceKey, v) :: rest, target =>
  match ctorOfValue v with
  | none =>
    (.error (.jsTypeError
      ("Cannot read properties of " ++ jsDisplayString v ++
        " (reading constructor)")), [])
  | some c =>
    match step sourceKey c v with
    | (.error e, log) => (.error e, log)
    | (.ok v1, log) =>
      let (r, logs) := passthroughFold step rest (alSet target sourceKey v1)
      (r, log ++ logs)

/-- The shared shape of the six `Float32Array`/…/`Uint32Array` branches of
`convertSingleValue`: an array source whose every element passes `!isNaN`
builds the typed buffer, anything else throws `TypeMismatch`. -/
def typedArrayConvert (k : TAKind) (sourceObject : Value)
    (srcName memberName : String) : ConvOut Value :=
  match sourceObject with
  | .arr xs =>
    if xs.all (fun e => !jsIsNaN e) then
      (.ok (.typedArr k (buildTypedElems k xs)), [])
    else
      (.error (.typeMismatch (taName k) "a numeric source array" srcName
        memberName), [])
  | _ =>
    (.error (.typeMismatch (taName k) "a numeric source array" srcName
      memberName), [])

/-- The condition of the Date branch: a string, or a positive number. -/
def dateSourceAccepted (v : Value) : Bool :=
  jsTypeof v == "string" ||
    (match v with
     | .num j => jsGtZero j
     | _ => false)

/-- `new ctor()` for the strong-typed branch (registered user classes; the
constructor body's own field initialization is elided — `Object.assign`
overwrites staged keys right after). -/
def instantiateType : Ctor → Value
| .cls c => .obj (some c) []
| _ => .obj none []

/-- `Object.assign(target, staged)` (onto non-object exotic targets the copy
is elided — unreachable from the engine, which only assigns onto instances). -/
def objAssign (target : Value) (staged : List (String × Value)) : Value :=
  match target with
  | .obj c fields => .obj c (staged.foldl (fun f e => alSet f e.1 e.2) fields)
  | t => t

def classChainHasInstanceMethod (c : ClassCtor) (n : String) : Bool :=
  (classChain c).any (fun k =>
    match k with
    | .base _ im _ => im.contains n
    | .derived _ im _ _ => im.contains n)

def classChainHasStaticMethod (c : ClassCtor) (n : String) : Bool :=
  (classChain c).any (fun k =>
    match k with
    | .base _ _ sm => sm.contains n
    | .derived _ _ sm _ => sm.contains n)

/-- `typeof targetObject[name] === "function"`: an own data property shadows
the prototype (and is never a function `Value`), else the class chain's
instance methods answer.  Prototype methods of built-ins are elided. -/
def instanceHasCallable (target : Value) (n : String) : Bool :=
  match target with
  | .obj (some c) fields => (alGet fields n).isNone && classChainHasInstanceMethod c n
  | _ => false

/-- `typeof targetObject.constructor[name] === "function"`: static methods,
inherited along the class chain. -/
def staticHasCallable (target : Value) (n : String) : Bool :=
  match ctorOfValue target with
  | some (.cls c) => classChainHasStaticMethod c n
  | _ => false

/-- The `onDeserialized` step of `convertAsObject` (hook bodies are modelled
as effect-free): a falsy configured name is skipped, an instance method is
preferred, then a static method, else `InvalidHook` is reported. -/
def hookLog (meta : ClassMetadata) (target : Value) : List JSErr :=
  match meta.onDeserializedMethodName with
  | some hookName =>
    if hookName == "" then []
    else if instanceHasCallable target hookName then []
    else if staticHasCallable target hookName then []
    else [.invalidHook (ctorName meta.classType ++ "." ++ hookName)]
  | none => []

/-! ## The conversion engine

The five mutually recursive converter methods, as a family indexed by fuel
(structural recursion on the fuel; every recursive call goes one level down,
except the per-member step, which shares its level with the member's
`convertSingleValue` as the termination ordering of the original mutual
recursion allows).  The wrappers `convertSingleValue` … `convertAsMap` below
carry the source names. -/

structure Convs where
  single : Value → IScopeTypeInfo → String → Option OptionsBase → ConvOut Value
  asObject : Value → IScopeTypeInfo → String → Option OptionsBase → ConvOut Value
  asArray : Value → IScopeTypeInfo → String → Option OptionsBase → ConvOut Value
  asSet : Value → IScopeTypeInfo → String → Option OptionsBase → ConvOut Value
  asMap : Value → IScopeTypeInfo → String → Option OptionsBase → ConvOut Value
  mstep : Value → KnownTypes → Option OptionsBase → String → String →
    MemberMetadata → ConvOut Value

/-- The body of `convertSingleValue` at one recursion level: `prev` holds the
converters delegated calls run with. -/
def singleBody (d : Deserializer) (prev : Convs) :
    Value → IScopeTypeInfo → String → Option OptionsBase → ConvOut Value := fun sourceObject typeInfo memberName memberOptions =>
    let expectedSelfType := typeInfo.selfConstructor
    let srcName := srcTypeNameForDebug sourceObject
    if retrievePreserveNull d memberOptions && isNullValue sourceObject then
      (.ok .null, [])
    else if !isValueDefined sourceObject then
      (.ok .undefined, [])
    else if isDirectlyDeserializableNativeType expectedSelfType then
      if ctorOfValue sourceObject == some expectedSelfType then
        (.ok sourceObject, [])
      else
        (.error (.genericMismatch (ctorName expectedSelfType)
          (ctorNameOfValue sourceObject) memberName), [])
    else if expectedSelfType == .date then
      match sourceObject with
      | .str s => (.ok (.date (jsDateParse s)), [])
      | .num j =>
        if jsGtZero j then (.ok (.date j), [])
        else
          (.error (.typeMismatch "Date" "an ISO-8601 string" srcName
            memberName), [])
      | _ =>
        (.error (.typeMismatch "Date" "an ISO-8601 string" srcName
          memberName), [])
    else if expectedSelfType == .float32Array then
      typedArrayConvert .f32 sourceObject srcName memberName
    else if expectedSelfType == .float64Array then
      typedArrayConvert .f64 sourceObject srcName memberName
    else if expectedSelfType == .uint8Array then
      typedArrayConvert .u8 sourceObject srcName memberName
    else if expectedSelfType == .uint8ClampedArray then
      typedArrayConvert .u8c sourceObject srcName memberName
    else if expectedSelfType == .uint16Array then
      typedArrayConvert .u16 sourceObject srcName memberName
    else if expectedSelfType == .uint32Array then
      typedArrayConvert .u32 sourceObject srcName memberName
    else if expectedSelfType == .arrayBuffer then
      match sourceObject with
      | .str s => (.ok (.arrayBuf (stringToUnits s)), [])
      | _ =>
        (.error (.typeMismatch "ArrayBuffer" "a string source" srcName
          memberName), [])
    else if expectedSelfType == .dataView then
      match sourceObject with
      | .str s => (.ok (.dataView (stringToUnits s)), [])
      | _ =>
        (.error (.typeMismatch "DataView" "a string source" srcName
          memberName), [])
    else if expectedSelfType == .array then
      match sourceObject with
      | .arr _ => prev.asArray sourceObject typeInfo memberName memberOptions
      | _ =>
        (.error (.genericMismatch "Array" (ctorNameOfValue sourceObject)
          memberName), [])
    else if expectedSelfType == .set then
      match sourceObject with
      | .arr _ => prev.asSet sourceObject typeInfo memberName memberOptions
      | _ =>
        (.error (.typeMismatch "Set" "Array" srcName memberName), [])
    else if expectedSelfType == .map then
      match sourceObject with
      | .arr _ => prev.asMap sourceObject typeInfo memberName memberOptions
      | _ =>
        (.error (.typeMismatch "Map" "a source array of key-value-pair objects"
          srcName memberName), [])
    else if jsTruthy sourceObject && jsTypeof sourceObject == "object" then
      prev.asObject sourceObject typeInfo memberName memberOptions
    else
      (.ok .undefined, [])

/-- The body of the per-member revival step at one recursion level (`single`
is the same-level `convertSingleValue`: in the source the member conversion
runs inside the same object-conversion call). -/
def mstepBody (_d : Deserializer)
    (single : Value → IScopeTypeInfo → String → Option OptionsBase → ConvOut Value) :
    Value → KnownTypes → Option OptionsBase → String → String →
      MemberMetadata → ConvOut Value :=
    fun sourceObject knownTypeConstructors classOptions className propKey
        memberMetadata =>
    let memberValue := jsGetOwn sourceObject propKey
    let memberNameForDebug := className ++ "." ++ propKey
    let memberOptions := mergeOptions classOptions memberMetadata.options
    match memberMetadata.deserializer with
    | some f => (f memberValue, [])
    | none =>
      match memberMetadata.ctorRef with
      | some c =>
        single memberValue
          ⟨c, memberMetadata.elementType, memberMetadata.keyType,
            knownTypeConstructors⟩
          memberNameForDebug memberOptions
      | none => (.error (.missingConverter memberNameForDebug), [])

/-- The body of `convertAsObject` at one recursion level. -/
def asObjectBody (d : Deserializer) (prev : Convs) :
    Value → IScopeTypeInfo → String → Option OptionsBase → ConvOut Value := fun sourceObject typeInfo objectName _memberOptions =>
    -- the source's `convertAsObject` never reads its `memberOptions` parameter
    -- (the name is shadowed by the per-member constant inside the loop)
    if jsTypeof sourceObject != "object" || isNullValue sourceObject then
      (.ok .undefined, [.notAnObject objectName])
    else
      match scopeKnownTypes d typeInfo.selfConstructor typeInfo.knownTypes with
      | .error e => (.error e, [])
      | .ok known1 =>
        match resolveHint d sourceObject typeInfo.selfConstructor known1 with
        | .error e => (.error e, [])
        | .ok (expectedSelfType, metaOpt, knownTypeConstructors) =>
          let passthru : ConvOut Value :=
            match passthroughFold
                (fun sourceKey c v =>
                  prev.single v
                    ⟨c, typeInfo.elementConstructor, typeInfo.keyConstructor,
                      typeInfo.knownTypes⟩
                    sourceKey none)
                (objOwnFields sourceObject) [] with
            | (.error e, log) => (.error e, log)
            | (.ok target, log) => (.ok (.obj none target), log)
          match metaOpt with
          | some meta =>
            if meta.isExplicitlyMarked then
              let classOptions := mergeOptions d.options meta.options
              let clsName := ctorName meta.classType
              match membersFold d classOptions clsName
                  (fun propKey mm =>
                    prev.mstep sourceObject knownTypeConstructors classOptions
                      clsName propKey mm)
                  meta.dataMembers [] with
              | (.error e, log) => (.error e, log)
              | (.ok staged, mlog) =>
                let finish : Value → ConvOut Value := fun t =>
                  let target := objAssign t staged
                  (.ok target, mlog ++ hookLog meta target)
                match meta.initializerCallback with
                | some init =>
                  match init (.obj none staged) sourceObject with
                  | .error e => (.ok .undefined, mlog ++ [e])
                  | .ok t =>
                    if !jsTruthy t then
                      (.ok .undefined,
                        mlog ++ [.initializerReturnedNothing objectName])
                    else if !(jsInstanceOf t meta.classType) then
                      (.ok .undefined, mlog ++ [.initializerWrongType objectName])
                    else finish t
                | none => finish (instantiateType expectedSelfType)
            else passthru
          | none => passthru

/-- The body of `convertAsArray` at one recursion level. -/
def asArrayBody (_d : Deserializer) (prev : Convs) :
    Value → IScopeTypeInfo → String → Option OptionsBase → ConvOut Value := fun sourceObject typeInfo memberName memberOptions =>
    match sourceObject with
    | .arr xs =>
      match typeInfo.elementConstructor with
      | some (e0 :: eRest) =>
        let elementTypeInfo : IScopeTypeInfo :=
          ⟨e0, some eRest, none, typeInfo.knownTypes⟩
        let (vs, log) := arrayElemsFold
          (fun el =>
            prev.single el elementTypeInfo (memberName ++ "[]") memberOptions)
          xs
        (.ok (.arr vs), log)
      | _ => (.ok (.arr []), [.arrayMissingElementCtor memberName])
    | _ =>
      match ctorOfValue sourceObject with
      | none =>
        (.error (.jsTypeError
          ("Cannot read properties of " ++ jsDisplayString sourceObject ++
            " (reading constructor)")), [])
      | some c =>
        (.ok (.arr []), [.genericMismatch "Array" (ctorName c) memberName])

/-- The body of `convertAsSet` at one recursion level. -/
def asSetBody (_d : Deserializer) (prev : Convs) :
    Value → IScopeTypeInfo → String → Option OptionsBase → ConvOut Value := fun sourceObject typeInfo memberName memberOptions =>
    match sourceObject with
    | .arr xs =>
      match typeInfo.elementConstructor with
      | some (e0 :: eRest) =>
        let elementTypeInfo : IScopeTypeInfo :=
          ⟨e0, some eRest, none, typeInfo.knownTypes⟩
        let (r, log) := setElemsFold
          (fun i el =>
            prev.single el elementTypeInfo
              (memberName ++ "[" ++ toString i ++ "]") memberOptions)
          0 [] xs
        (.ok (.setVal r), log)
      | _ => (.ok (.setVal []), [.setMissingElementCtor memberName])
    | _ =>
      match ctorOfValue sourceObject with
      | none =>
        (.error (.jsTypeError
          ("Cannot read properties of " ++ jsDisplayString sourceObject ++
            " (reading constructor)")), [])
      | some c =>
        (.ok (.setVal []), [.genericMismatch "Array" (ctorName c) memberName])

/-- The body of `convertAsMap` at one recursion level. -/
def asMapBody (_d : Deserializer) (prev : Convs) :
    Value → IScopeTypeInfo → String → Option OptionsBase → ConvOut Value := fun sourceObject typeInfo memberName memberOptions =>
    let arrCheck : Except JSErr (List JSErr) :=
      match sourceObject with
      | .arr _ => .ok []
      | _ =>
        match ctorOfValue sourceObject with
        | none =>
          .error (.jsTypeError
            ("Cannot read properties of " ++ jsDisplayString sourceObject ++
              " (reading constructor)"))
        | some c => .ok [.genericMismatch "Array" (ctorName c) memberName]
    match arrCheck with
    | .error e => (.error e, [])
    | .ok log0 =>
      match typeInfo.keyConstructor with
      | none => (.ok (.mapVal []), log0 ++ [.mapMissingKeyCtor memberName])
      | some keyCtor =>
        match typeInfo.elementConstructor with
        | some (e0 :: eRest) =>
          let keyTypeInfo : IScopeTypeInfo :=
            ⟨keyCtor, none, none, typeInfo.knownTypes⟩
          let valueTypeInfo : IScopeTypeInfo :=
            ⟨e0, some eRest, none, typeInfo.knownTypes⟩
          match jsForEachable sourceObject with
          | none =>
            (.error (.jsTypeError "sourceObject.forEach is not a function"),
              log0)
          | some elements =>
            let (entries, log) := mapEntriesFold
              (fun rawKey =>
                prev.single rawKey keyTypeInfo memberName memberOptions)
              (fun key rawValue =>
                prev.single rawValue valueTypeInfo
                  (memberName ++ "[" ++ jsDisplayString key ++ "]")
                  memberOptions)
              elements []
            (.ok (.mapVal entries), log0 ++ log)
        | _ => (.ok (.mapVal []), log0 ++ [.mapMissingValueCtor memberName])

def convs (d : Deserializer) : Nat → Convs
| 0 =>
  { single := fun _ _ _ _ => (.error .outOfFuel, [])
    asObject := fun _ _ _ _ => (.error .outOfFuel, [])
    asArray := fun _ _ _ _ => (.error .outOfFuel, [])
    asSet := fun _ _ _ _ => (.error .outOfFuel, [])
    asMap := fun _ _ _ _ => (.error .outOfFuel, [])
    mstep := fun _ _ _ _ _ _ => (.error .outOfFuel, []) }
| fuel + 1 =>
  let prev := convs d fuel
  { single := singleBody d prev, asObject := asObjectBody d prev,
    asArray := asArrayBody d prev, asSet := asSetBody d prev,
    asMap := asMapBody d prev, mstep := mstepBody d (singleBody d prev) }

/-- `convertSingleValue`. -/
def convertSingleValue (d : Deserializer) (fuel : Nat) (sourceObject : Value)
    (typeInfo : IScopeTypeInfo) (memberName : String)
    (memberOptions : Option OptionsBase) : ConvOut Value :=
  (convs d fuel).single sourceObject typeInfo memberName memberOptions

/-- `convertAsObject`. -/
def convertAsObject (d : Deserializer) (fuel : Nat) (sourceObject : Value)
    (sourceObjectTypeInfo : IScopeTypeInfo) (objectName : String)
    (memberOptions : Option OptionsBase) : ConvOut Value :=
  (convs d fuel).asObject sourceObject sourceObjectTypeInfo objectName
    memberOptions

/-- `convertAsArray`. -/
def convertAsArray (d : Deserializer) (fuel : Nat) (sourceObject : Value)
    (typeInfo : IScopeTypeInfo) (memberName : String)
    (memberOptions : Option OptionsBase) : ConvOut Value :=
  (convs d fuel).asArray sourceObject typeInfo memberName memberOptions

/-- `convertAsSet`. -/
def convertAsSet (d : Deserializer) (fuel : Nat) (sourceObject : Value)
    (typeInfo : IScopeTypeInfo) (memberName : String)
    (memberOptions : Option OptionsBase) : ConvOut Value :=
  (convs d fuel).asSet sourceObject typeInfo memberName memberOptions

/-- `convertAsMap`. -/
def convertAsMap (d : Deserializer) (fuel : Nat) (sourceObject : Value)
    (typeInfo : IScopeTypeInfo) (memberName : String)
    (memberOptions : Option OptionsBase) : ConvOut Value :=
  (convs d fuel).asMap sourceObject typeInfo memberName memberOptions

/-- The per-member revival step of `convertAsObject`'s strong-typed branch
(the body of its `dataMembers.forEach` callback up to the staging decision):
a configured custom deserializer is invoked directly, else a configured
constructor drives `convertSingleValue`, else `MissingConverter` is thrown. -/
def memberConvertStep (d : Deserializer) (fuel : Nat) (sourceObject : Value)
    (knownTypeConstructors : KnownTypes) (classOptions : Option OptionsBase)
    (className : String) (propKey : String)
    (memberMetadata : MemberMetadata) : ConvOut Value :=
  (convs d fuel).mstep sourceObject knownTypeConstructors classOptions
    className propKey memberMetadata

/-! ## General lemmas about the loops -/

/-- The array loop element-wise: slot `i` of the output is the caught outcome
of converting slot `i` of the input, and the log is the concatenation of the
per-element logs — elements are processed independently and in order. -/
theorem arrayElemsFold_eq (step : Value → ConvOut Value) (xs : List Value) :
    arrayElemsFold step xs =
      (xs.map (fun e => (runCatching (step e)).1),
        (xs.map (fun e => (runCatching (step e)).2)).flatten) := by
  induction xs with
  | nil => rfl
  | cons x xs ih => simp [arrayElemsFold, ih]

/-- The map loop pair-wise: the final entry list folds the per-pair outcomes
over `Map.set` from the accumulator, and the log concatenates per-pair logs. -/
theorem mapEntriesFold_eq (stepK : Value → ConvOut Value)
    (stepV : Value → Value → ConvOut Value) (els : List Value)
    (acc : List (Value × Value)) :
    mapEntriesFold stepK stepV els acc =
      (els.foldl
        (fun m el =>
          match (mapPairOutcome stepK stepV el).1 with
          | some kv => mapSet m kv.1 kv.2
          | none => m) acc,
        (els.map (fun el => (mapPairOutcome stepK stepV el).2)).flatten) := by
  induction els generalizing acc with
  | nil => rfl
  | cons el els ih =>
    simp only [mapEntriesFold, List.foldl, List.map, List.flatten]
    cases h : mapPairOutcome stepK stepV el with
    | mk o log =>
      cases o with
      | some kv => cases kv; simp [ih, h]
      | none => simp [ih, h]

theorem ctorOfValue_none_of_undefined {v : Value}
    (h : isValueDefined v = false) : ctorOfValue v = none := by
  cases v <;> simp_all [isValueDefined, ctorOfValue]

/-- The passthrough loop throws whenever some own property value is undefined
or null (the constructor read of that property, or an earlier conversion,
raises). -/
theorem passthroughFold_error (step : String → Ctor → Value → ConvOut Value)
    (fields target : List (String × Value)) (k0 : String) (v0 : Value)
    (hmem : (k0, v0) ∈ fields) (hv : isValueDefined v0 = false) :
    ∃ e, (passthroughFold step fields target).1 = Except.error e := by
  induction fields generalizing target with
  | nil => cases hmem
  | cons kv rest ih =>
    obtain ⟨k, v⟩ := kv
    simp only [passthroughFold]
    by_cases hd : isValueDefined v = false
    · rw [ctorOfValue_none_of_undefined hd]
      exact ⟨_, rfl⟩
    · have hmem1 : (k0, v0) ∈ rest := by
        rcases List.mem_cons.1 hmem with h | h
        · injection h with h1 h2
          exact absurd (h2 ▸ hv) hd
        · exact h
      cases hc : ctorOfValue v with
      | none => exact ⟨_, rfl⟩
      | some c =>
        cases hs : step k c v with
        | mk r log =>
          cases r with
          | error e => exact ⟨e, by simp only [hs]⟩
          | ok v1 =>
            obtain ⟨e2, he2⟩ := ih (alSet target k v1) hmem1
            refine ⟨e2, ?_⟩
            simp only [hs]
            cases hrec : passthroughFold step rest (alSet target k v1) with
            | mk r2 log2 =>
              rw [hrec] at he2
              simp only [hrec]
              exact he2

/-! ## Concrete fixtures (used by witnesses and counterexamples) -/

def emptyRegistry : Ctor → Option ClassMetadata := fun _ => none

/-- A fresh engine over an empty metadata registry. -/
def plainDeserializer : Deserializer := mkDeserializer emptyRegistry

def classA : ClassCtor := .base "A" [] []

/-- `class B extends A`. -/
def classB : ClassCtor := .derived "B" [] [] classA

/-- A class unrelated to `A`. -/
def classC : ClassCtor := .base "C" [] []

def memberNumber (k : String) : MemberMetadata := { key := k, ctorRef := some .number }

def memberString (k : String) : MemberMetadata := { key := k, ctorRef := some .string }

def metaPolyA : ClassMetadata :=
  { classType := .cls classA, isExplicitlyMarked := true,
    dataMembers := [("x", memberNumber "x")],
    knownTypes := [.cls classB, .cls classC] }

def metaPolyB : ClassMetadata :=
  { classType := .cls classB, isExplicitlyMarked := true,
    dataMembers := [("x", memberNumber "x"), ("y", memberString "y")] }

def metaPolyC : ClassMetadata :=
  { classType := .cls classC, isExplicitlyMarked := true,
    dataMembers := [("z", memberNumber "z")] }

/-- `A` (with known subtypes `B` and the unrelated registered `C`), `B`, `C`
registered and explicitly marked. -/
def polyRegistry : Ctor → Option ClassMetadata := fun c =>
  if c == .cls classA then some metaPolyA
  else if c == .cls classB then some metaPolyB
  else if c == .cls classC then some metaPolyC
  else none

def polyDeserializer : Deserializer := mkDeserializer polyRegistry

/-- Registration of `A` whose instantiation callback returns a fresh instance
of the proper subtype `B`. -/
def metaInitSub : ClassMetadata :=
  { classType := .cls classA, isExplicitlyMarked := true,
    initializerCallback := some (fun _ _ => .ok (.obj (some classB) [])) }

def initSubRegistry : Ctor → Option ClassMetadata := fun c =>
  if c == .cls classA then some metaInitSub else none

def initSubDeserializer : Deserializer := mkDeserializer initSubRegistry

/-- Registration of `A` with a post-deserialization hook name that names
neither an instance nor a static method. -/
def metaBadHook : ClassMetadata :=
  { classType := .cls classA, isExplicitlyMarked := true,
    onDeserializedMethodName := some "afterLoad" }

def badHookRegistry : Ctor → Option ClassMetadata := fun c =>
  if c == .cls classA then some metaBadHook else none

def badHookDeserializer : Deserializer := mkDeserializer badHookRegistry

/-! ## The claims -/

def tiNumberArray : IScopeTypeInfo := ⟨.array, some [.number], none, []⟩

/-- C2: for every input array, `convertAsArray` returns an output of exactly
the same length with elements in the same order: slot `i` of the output is
the caught outcome of converting slot `i` of the input against the element
type (and `runCatching` shows a thrown element conversion is reported to the
error handler and its slot filled with `undefined` rather than removed), the
log being the in-order concatenation of the per-element logs.  Index
alignment with the source therefore never shifts. -/
theorem claim2_sequence_alignment (d : Deserializer) (fuel : Nat)
    (xs : List Value) (typeInfo : IScopeTypeInfo) (memberName : String)
    (memberOptions : Option OptionsBase) (e0 : Ctor) (eRest : List Ctor)
    (hec : typeInfo.elementConstructor = some (e0 :: eRest)) :
    convertAsArray d (fuel + 1) (.arr xs) typeInfo memberName memberOptions =
      (.ok (.arr (xs.map (fun el => (runCatching (convertSingleValue d fuel el
          ⟨e0, some eRest, none, typeInfo.knownTypes⟩ (memberName ++ "[]")
          memberOptions)).1))),
        (xs.map (fun el => (runCatching (convertSingleValue d fuel el
          ⟨e0, some eRest, none, typeInfo.knownTypes⟩ (memberName ++ "[]")
          memberOptions)).2)).flatten)
    ∧ (xs.map (fun el => (runCatching (convertSingleValue d fuel el
          ⟨e0, some eRest, none, typeInfo.knownTypes⟩ (memberName ++ "[]")
          memberOptions)).1)).length = xs.length := by
  constructor
  · simp [convertAsArray, convs, asArrayBody, hec, arrayElemsFold_eq,
      convertSingleValue]
  · simp

/-- C2, witnessed at the spec's example: `[1, "bad", 3]` against a numeric
element type yields `[1, undefined, 3]` with one reported error. -/
theorem claim2_sequence_alignment_witness :
    (tiNumberArray.elementConstructor = some [Ctor.number]) ∧
    (convertAsArray plainDeserializer 6
        (.arr [.num (.int 1), .str "bad", .num (.int 3)]) tiNumberArray
        "object" none =
      (.ok (.arr [.num (.int 1), .undefined, .num (.int 3)]),
        [.genericMismatch "Number" "String" "object[]"])
    ∧ ([Value.num (.int 1), .undefined, .num (.int 3)].length = 3)) :=
  ⟨rfl, claim2_sequence_alignment plainDeserializer 5
    [.num (.int 1), .str "bad", .num (.int 3)] tiNumberArray "object" none
    .number [] rfl⟩

def tiStringNumberMap : IScopeTypeInfo := ⟨.map, some [.number], some .string, []⟩

/-- C4: `convertAsMap` processes each pair through `mapPairOutcome`, whose
definition converts the key before the value, silently skips (with no log
entry and no partial entry) a pair whose key converts to undefined or null,
and reports-then-skips a pair whose key or value read/conversion throws; the
resulting map folds the surviving entries in order, and the log is the
concatenation of the per-pair logs.  The second conjunct is the spec's
example: `[{key:"a",value:1},{key:null,value:2}]` against string keys and
numeric values yields exactly the one-entry map `"a" -> 1` with an empty
log. -/
theorem claim4_map_pair_processing (d : Deserializer) (fuel : Nat)
    (els : List Value) (typeInfo : IScopeTypeInfo) (memberName : String)
    (memberOptions : Option OptionsBase) (kc e0 : Ctor) (eRest : List Ctor)
    (hkc : typeInfo.keyConstructor = some kc)
    (hec : typeInfo.elementConstructor = some (e0 :: eRest)) :
    (convertAsMap d (fuel + 1) (.arr els) typeInfo memberName memberOptions =
      (.ok (.mapVal (els.foldl (fun m el =>
          match (mapPairOutcome
              (fun rawKey => convertSingleValue d fuel rawKey
                ⟨kc, none, none, typeInfo.knownTypes⟩ memberName memberOptions)
              (fun key rawValue => convertSingleValue d fuel rawValue
                ⟨e0, some eRest, none, typeInfo.knownTypes⟩
                (memberName ++ "[" ++ jsDisplayString key ++ "]") memberOptions)
              el).1 with
          | some kv => mapSet m kv.1 kv.2
          | none => m) [])),
        (els.map (fun el => (mapPairOutcome
              (fun rawKey => convertSingleValue d fuel rawKey
                ⟨kc, none, none, typeInfo.knownTypes⟩ memberName memberOptions)
              (fun key rawValue => convertSingleValue d fuel rawValue
                ⟨e0, some eRest, none, typeInfo.knownTypes⟩
                (memberName ++ "[" ++ jsDisplayString key ++ "]") memberOptions)
              el).2)).flatten))
    ∧ convertAsMap plainDeserializer 6
        (.arr [.obj none [("key", .str "a"), ("value", .num (.int 1))],
               .obj none [("key", .null), ("value", .num (.int 2))]])
        tiStringNumberMap "object" none =
      (.ok (.mapVal [(.str "a", .num (.int 1))]), []) := by
  constructor
  · simp [convertAsMap, convs, asMapBody, hkc, hec, mapEntriesFold_eq,
      convertSingleValue, jsForEachable]
  · rfl

/-- C4, witnessed at the spec's example input. -/
theorem claim4_map_pair_processing_witness :
    (tiStringNumberMap.keyConstructor = some Ctor.string) ∧
    (tiStringNumberMap.elementConstructor = some [Ctor.number]) ∧
    ((convertAsMap plainDeserializer 6
        (.arr [.obj none [("key", .str "a"), ("value", .num (.int 1))],
               .obj none [("key", .null), ("value", .num (.int 2))]])
        tiStringNumberMap "object" none =
      (.ok (.mapVal [(.str "a", .num (.int 1))]), []))
    ∧ convertAsMap plainDeserializer 6
        (.arr [.obj none [("key", .str "a"), ("value", .num (.int 1))],
               .obj none [("key", .null), ("value", .num (.int 2))]])
        tiStringNumberMap "object" none =
      (.ok (.mapVal [(.str "a", .num (.int 1))]), [])) :=
  ⟨rfl, rfl, claim4_map_pair_processing plainDeserializer 5
    [.obj none [("key", .str "a"), ("value", .num (.int 1))],
     .obj none [("key", .null), ("value", .num (.int 2))]]
    tiStringNumberMap "object" none .string .number [] rfl rfl⟩

/-- C3: when the type-hint resolver yields a constructor `c`, `convertAsObject`
(whose hint step is the definition `resolveHint` it pattern-matches on)
switches the expected type to `c` exactly when `c` is the expected type itself
or a subtype of it — re-fetching `c`'s class metadata from the registry and
merging `c`'s own known subtypes into the scope's map — while a hint that is
not a subtype leaves the expected type, its metadata and the known-types map
unchanged and raises no error (the result is `Except.ok` with an empty
contribution to the log, as the two closed conjuncts also exhibit end to end:
a registered non-subtype discriminator `"C"` is ignored and the value
converted as the statically declared `A`, while the subtype discriminator
`"B"` switches the conversion to `B`). -/
theorem claim3_type_hint_resolution (d : Deserializer) (src : Value)
    (et : Ctor) (kts : KnownTypes) (c : Ctor)
    (hres : d.typeResolver src kts = some c) :
    ((isSubtypeOf c et = true) → ∀ et1 m1 k1,
        resolveHint d src et kts = .ok (et1, m1, k1) →
        et1 = c ∧ m1 = d.registry c ∧ (d.registry c = none → k1 = kts))
    ∧ (∀ m2 km, isSubtypeOf c et = true → d.registry c = some m2 →
        createKnownTypesMap d m2.knownTypes = .ok km →
        resolveHint d src et kts =
          (mergeKnownTypes d [kts, km]).map (fun mg => (c, some m2, mg)))
    ∧ (isSubtypeOf c et = false →
        resolveHint d src et kts = .ok (et, d.registry et, kts))
    ∧ convertAsObject polyDeserializer 6
        (.obj none [("__type", .str "C"), ("x", .num (.int 1))])
        ⟨.cls classA, none, none, []⟩ "object" none
      = (.ok (.obj (some classA) [("x", .num (.int 1))]), [])
    ∧ convertAsObject polyDeserializer 6
        (.obj none [("__type", .str "B"), ("x", .num (.int 1)), ("y", .str "z")])
        ⟨.cls classA, none, none, []⟩ "object" none
      = (.ok (.obj (some classB) [("x", .num (.int 1)), ("y", .str "z")]), []) := by
  refine ⟨?_, ?_, ?_, rfl, rfl⟩
  · intro hsub et1 m1 k1 h
    unfold resolveHint at h
    rw [hres] at h
    simp only [hsub, if_true] at h
    cases hr : d.registry c with
    | none =>
      simp only [hr] at h
      simp only [Except.ok.injEq, Prod.mk.injEq] at h
      exact ⟨h.1.symm, h.2.1.symm, fun _ => h.2.2.symm⟩
    | some m2 =>
      simp only [hr] at h
      cases hcr : createKnownTypesMap d m2.knownTypes with
      | error e => simp only [hcr] at h; exact absurd h (by simp)
      | ok km =>
        simp only [hcr] at h
        cases hm : mergeKnownTypes d [kts, km] with
        | error e => simp only [hm] at h; exact absurd h (by simp)
        | ok mg =>
          simp only [hm] at h
          simp only [Except.ok.injEq, Prod.mk.injEq] at h
          exact ⟨h.1.symm, h.2.1.symm, fun hn => absurd hn (by simp)⟩
  · intro m2 km hsub hr hkm
    unfold resolveHint
    rw [hres]
    simp only [hsub, if_true, hr, hkm]
    cases hm : mergeKnownTypes d [kts, km] with
    | error e => simp [Except.map]
    | ok mg => simp [Except.map]
  · intro h
    unfold resolveHint
    rw [hres]
    simp [h]

/-- C3, witnessed with the default resolver yielding the registered subtype
`B` of the expected `A`. -/
theorem claim3_type_hint_resolution_witness :
    (polyDeserializer.typeResolver (.obj none [("__type", .str "B")])
        [("B", .cls classB)] = some (.cls classB)) ∧
    (((isSubtypeOf (.cls classB) (.cls classA) = true) → ∀ et1 m1 k1,
        resolveHint polyDeserializer (.obj none [("__type", .str "B")])
          (.cls classA) [("B", .cls classB)] = .ok (et1, m1, k1) →
        et1 = .cls classB ∧ m1 = polyDeserializer.registry (.cls classB) ∧
          (polyDeserializer.registry (.cls classB) = none →
            k1 = [("B", .cls classB)]))
    ∧ (∀ m2 km, isSubtypeOf (.cls classB) (.cls classA) = true →
        polyDeserializer.registry (.cls classB) = some m2 →
        createKnownTypesMap polyDeserializer m2.knownTypes = .ok km →
        resolveHint polyDeserializer (.obj none [("__type", .str "B")])
          (.cls classA) [("B", .cls classB)] =
          (mergeKnownTypes polyDeserializer [[("B", .cls classB)], km]).map
            (fun mg => (.cls classB, some m2, mg)))
    ∧ (isSubtypeOf (.cls classB) (.cls classA) = false →
        resolveHint polyDeserializer (.obj none [("__type", .str "B")])
          (.cls classA) [("B", .cls classB)] =
          .ok (.cls classA, polyDeserializer.registry (.cls classA),
            [("B", .cls classB)]))
    ∧ convertAsObject polyDeserializer 6
        (.obj none [("__type", .str "C"), ("x", .num (.int 1))])
        ⟨.cls classA, none, none, []⟩ "object" none
      = (.ok (.obj (some classA) [("x", .num (.int 1))]), [])
    ∧ convertAsObject polyDeserializer 6
        (.obj none [("__type", .str "B"), ("x", .num (.int 1)), ("y", .str "z")])
        ⟨.cls classA, none, none, []⟩ "object" none
      = (.ok (.obj (some classB) [("x", .num (.int 1)), ("y", .str "z")]), [])) :=
  ⟨rfl, claim3_type_hint_resolution polyDeserializer
    (.obj none [("__type", .str "B")]) (.cls classA) [("B", .cls classB)]
    (.cls classB) rfl⟩

/-- C1 counterexample: the registered instantiation callback returns a fresh
instance of the proper subtype `B` of the expected type `A`.  The claim says
exact-type validation must report `InvalidInitializerResult` and return
`undefined`; the code's `targetObject instanceof classType` check is
subtype-inclusive, so the `B` instance is accepted and returned, with nothing
reported to the error handler. -/
theorem claim1_exact_type_counterexample :
    convertAsObject initSubDeserializer 6 (.obj none [])
      ⟨.cls classA, none, none, []⟩ "object" none
    = (.ok (.obj (some classB) []), []) := rfl

/-- C1 as amended: the instantiation callback's result is validated to be
truthy and an instance of the expected type, where an instance of a proper
subtype IS accepted (`jsInstanceOf` is prototype-chain membership); when the
callback throws, returns a falsy value, or returns a non-instance, the error
is caught, reported to the error handler (`InvalidInitializerResult`), and
the whole object's conversion returns `undefined`. -/
theorem claim1_initializer_validation (d : Deserializer) (fuel : Nat)
    (src : Value) (ti : IScopeTypeInfo) (objectName : String)
    (mo : Option OptionsBase) (meta : ClassMetadata)
    (init : Value → Value → Except JSErr Value) (kts : KnownTypes)
    (staged : List (String × Value)) (mlog : List JSErr)
    (hobj : jsTypeof src = "object") (hnn : isNullValue src = false)
    (hres : ∀ kt, d.typeResolver src kt = none)
    (hreg : d.registry ti.selfConstructor = some meta)
    (hmark : meta.isExplicitlyMarked = true)
    (hk : scopeKnownTypes d ti.selfConstructor ti.knownTypes = .ok kts)
    (hinit : meta.initializerCallback = some init)
    (hmem : membersFold d (mergeOptions d.options meta.options)
        (ctorName meta.classType)
        (fun pk mm => memberConvertStep d fuel src kts
          (mergeOptions d.options meta.options) (ctorName meta.classType) pk mm)
        meta.dataMembers [] = (.ok staged, mlog)) :
    (∀ e, init (.obj none staged) src = .error e →
      convertAsObject d (fuel + 1) src ti objectName mo =
        (.ok .undefined, mlog ++ [e]))
    ∧ (∀ t, init (.obj none staged) src = .ok t → jsTruthy t = false →
      convertAsObject d (fuel + 1) src ti objectName mo =
        (.ok .undefined, mlog ++ [.initializerReturnedNothing objectName]))
    ∧ (∀ t, init (.obj none staged) src = .ok t → jsTruthy t = true →
      jsInstanceOf t meta.classType = false →
      convertAsObject d (fuel + 1) src ti objectName mo =
        (.ok .undefined, mlog ++ [.initializerWrongType objectName]))
    ∧ (∀ t, init (.obj none staged) src = .ok t → jsTruthy t = true →
      jsInstanceOf t meta.classType = true →
      convertAsObject d (fuel + 1) src ti objectName mo =
        (.ok (objAssign t staged), mlog ++ hookLog meta (objAssign t staged))) := by
  simp only [memberConvertStep] at hmem
  refine ⟨?_, ?_, ?_, ?_⟩
  · intro e he
    simp [convertAsObject, convs, asObjectBody, hobj, hnn, hres, hk, hreg,
      hmark, hinit, he, resolveHint, hmem]
  · intro t ht htr
    simp [convertAsObject, convs, asObjectBody, hobj, hnn, hres, hk, hreg,
      hmark, hinit, ht, htr, resolveHint, hmem]
  · intro t ht htr hinst
    simp [convertAsObject, convs, asObjectBody, hobj, hnn, hres, hk, hreg,
      hmark, hinit, ht, htr, hinst, resolveHint, hmem]
  · intro t ht htr hinst
    simp [convertAsObject, convs, asObjectBody, hobj, hnn, hres, hk, hreg,
      hmark, hinit, ht, htr, hinst, resolveHint, hmem]

/-- C1 as amended, witnessed on the subtype-returning callback registration
(hypotheses discharged at a concrete input; the fourth conjunct instantiated
at the `B` instance is exactly the accepted-subtype behaviour the
counterexample exhibits). -/
theorem claim1_initializer_validation_witness :
    (jsTypeof (Value.obj none []) = "object") ∧
    (initSubDeserializer.registry (.cls classA) = some metaInitSub) ∧
    (metaInitSub.initializerCallback =
      some (fun _ _ => .ok (.obj (some classB) []))) ∧
    ((∀ e, (fun (_ : Value) (_ : Value) =>
          (.ok (.obj (some classB) []) : Except JSErr Value)) (.obj none [])
          (.obj none []) = .error e →
      convertAsObject initSubDeserializer (5 + 1) (.obj none [])
        ⟨.cls classA, none, none, []⟩ "object" none = (.ok .undefined, [] ++ [e]))
    ∧ (∀ t, (fun (_ : Value) (_ : Value) =>
          (.ok (.obj (some classB) []) : Except JSErr Value)) (.obj none [])
          (.obj none []) = .ok t → jsTruthy t = false →
      convertAsObject initSubDeserializer (5 + 1) (.obj none [])
        ⟨.cls classA, none, none, []⟩ "object" none =
        (.ok .undefined, [] ++ [.initializerReturnedNothing "object"]))
    ∧ (∀ t, (fun (_ : Value) (_ : Value) =>
          (.ok (.obj (some classB) []) : Except JSErr Value)) (.obj none [])
          (.obj none []) = .ok t → jsTruthy t = true →
      jsInstanceOf t metaInitSub.classType = false →
      convertAsObject initSubDeserializer (5 + 1) (.obj none [])
        ⟨.cls classA, none, none, []⟩ "object" none =
        (.ok .undefined, [] ++ [.initializerWrongType "object"]))
    ∧ (∀ t, (fun (_ : Value) (_ : Value) =>
          (.ok (.obj (some classB) []) : Except JSErr Value)) (.obj none [])
          (.obj none []) = .ok t → jsTruthy t = true →
      jsInstanceOf t metaInitSub.classType = true →
      convertAsObject initSubDeserializer (5 + 1) (.obj none [])
        ⟨.cls classA, none, none, []⟩ "object" none =
        (.ok (objAssign t []), [] ++ hookLog metaInitSub (objAssign t [])))) :=
  ⟨rfl, rfl, rfl,
    claim1_initializer_validation initSubDeserializer 5 (.obj none [])
      ⟨.cls classA, none, none, []⟩ "object" none metaInitSub
      (fun _ _ => .ok (.obj (some classB) [])) [] [] []
      rfl rfl (fun _ => rfl) rfl rfl rfl rfl rfl⟩

/-- C7 counterexample: class `A` is registered with the post-deserialization
hook name `"afterLoad"`, which resolves to neither an instance nor a static
method.  The claim says this is fatal (raised, aborting the object's
conversion and propagating to the caller); the code instead passes an
`InvalidHook` error to the recoverable error handler and still returns the
converted object. -/
theorem claim7_fatal_hook_counterexample :
    convertAsObject badHookDeserializer 6 (.obj none [])
      ⟨.cls classA, none, none, []⟩ "object" none
    = (.ok (.obj (some classA) []), [.invalidHook "A.afterLoad"]) := rfl

/-- C7 as amended: a configured hook name that resolves to neither an
instance method on the target nor a static method on its constructor is a
recoverable error — `InvalidHook` is reported to the error handler and the
object is still returned (`Except.ok` with the assigned target). -/
theorem claim7_invalid_hook_reported (d : Deserializer) (fuel : Nat)
    (src : Value) (ti : IScopeTypeInfo) (objectName : String)
    (mo : Option OptionsBase) (meta : ClassMetadata) (kts : KnownTypes)
    (staged : List (String × Value)) (mlog : List JSErr) (hookName : String)
    (hobj : jsTypeof src = "object") (hnn : isNullValue src = false)
    (hres : ∀ kt, d.typeResolver src kt = none)
    (hreg : d.registry ti.selfConstructor = some meta)
    (hmark : meta.isExplicitlyMarked = true)
    (hk : scopeKnownTypes d ti.selfConstructor ti.knownTypes = .ok kts)
    (hinit : meta.initializerCallback = none)
    (hmem : membersFold d (mergeOptions d.options meta.options)
        (ctorName meta.classType)
        (fun pk mm => memberConvertStep d fuel src kts
          (mergeOptions d.options meta.options) (ctorName meta.classType) pk mm)
        meta.dataMembers [] = (.ok staged, mlog))
    (hhn : meta.onDeserializedMethodName = some hookName)
    (hne : ¬(hookName = ""))
    (hni : instanceHasCallable
        (objAssign (instantiateType ti.selfConstructor) staged) hookName = false)
    (hns : staticHasCallable
        (objAssign (instantiateType ti.selfConstructor) staged) hookName = false) :
    convertAsObject d (fuel + 1) src ti objectName mo =
      (.ok (objAssign (instantiateType ti.selfConstructor) staged),
        mlog ++ [.invalidHook (ctorName meta.classType ++ "." ++ hookName)]) := by
  simp only [memberConvertStep] at hmem
  simp [convertAsObject, convs, asObjectBody, hobj, hnn, hres, hk, hreg,
    hmark, hinit, resolveHint, hmem, hookLog, hhn, hne, hni, hns]

/-- C7 as amended, witnessed on the bad-hook registration. -/
theorem claim7_invalid_hook_reported_witness :
    (metaBadHook.onDeserializedMethodName = some "afterLoad") ∧
    (¬("afterLoad" = "")) ∧
    (instanceHasCallable
      (objAssign (instantiateType (.cls classA)) []) "afterLoad" = false) ∧
    (staticHasCallable
      (objAssign (instantiateType (.cls classA)) []) "afterLoad" = false) ∧
    convertAsObject badHookDeserializer (5 + 1) (.obj none [])
      ⟨.cls classA, none, none, []⟩ "object" none =
      (.ok (objAssign (instantiateType (.cls classA)) []),
        [] ++ [.invalidHook (ctorName metaBadHook.classType ++ "." ++ "afterLoad")]) :=
  ⟨rfl, by decide, rfl, rfl,
    claim7_invalid_hook_reported badHookDeserializer 5 (.obj none [])
      ⟨.cls classA, none, none, []⟩ "object" none metaBadHook [] [] []
      "afterLoad" rfl rfl (fun _ => rfl) rfl rfl rfl rfl rfl rfl (by decide)
      rfl rfl⟩

def tiDate : IScopeTypeInfo := ⟨.date, none, none, []⟩

/-- C5 counterexample: the claim says a string that does not conform to
ISO-8601 fails with a recoverable `TypeMismatch`; the code accepts *any*
string (`typeof sourceObject === "string"`) and returns `new Date(string)`,
here an Invalid Date (NaN time value), with no error thrown or reported. -/
theorem claim5_nonIso_string_counterexample :
    convertSingleValue plainDeserializer 6 (.str "not-a-date") tiDate
      "object" none
    = (.ok (.date .nan), []) := rfl

/-- C5 as amended: with expected type `Date`, `convertSingleValue` accepts
every string — returning the host-parsed Date, which is the correct instant
for a well-formed ISO-8601 calendar date and an Invalid Date otherwise — and
every positive numeric timestamp; a defined source that is neither a string
nor a positive number throws `TypeMismatch`. -/
theorem claim5_date_conversion (d : Deserializer) (fuel : Nat)
    (ti : IScopeTypeInfo) (mn : String) (mo : Option OptionsBase)
    (hti : ti.selfConstructor = .date) :
    (∀ s, convertSingleValue d (fuel + 1) (.str s) ti mn mo =
      (.ok (.date (jsDateParse s)), []))
    ∧ (∀ j, jsGtZero j = true →
      convertSingleValue d (fuel + 1) (.num j) ti mn mo = (.ok (.date j), []))
    ∧ (∀ src, isValueDefined src = true → dateSourceAccepted src = false →
      convertSingleValue d (fuel + 1) src ti mn mo =
        (.error (.typeMismatch "Date" "an ISO-8601 string"
          (srcTypeNameForDebug src) mn), [])) := by
  refine ⟨?_, ?_, ?_⟩
  · intro s
    simp [convertSingleValue, convs, singleBody, hti,
      isDirectlyDeserializableNativeType, isNullValue, isValueDefined]
  · intro j hj
    simp [convertSingleValue, convs, singleBody, hti,
      isDirectlyDeserializableNativeType, isNullValue, isValueDefined, hj]
  · intro src hdef hrej
    cases src <;>
      simp_all [convertSingleValue, convs, singleBody, hti, dateSourceAccepted,
        isDirectlyDeserializableNativeType, isNullValue, isValueDefined,
        jsTypeof]

/-- C5 as amended, witnessed over the `Date`-expecting scope. -/
theorem claim5_date_conversion_witness :
    (tiDate.selfConstructor = Ctor.date) ∧
    ((∀ s, convertSingleValue plainDeserializer (5 + 1) (.str s) tiDate
        "object" none = (.ok (.date (jsDateParse s)), []))
    ∧ (∀ j, jsGtZero j = true →
      convertSingleValue plainDeserializer (5 + 1) (.num j) tiDate "object"
        none = (.ok (.date j), []))
    ∧ (∀ src, isValueDefined src = true → dateSourceAccepted src = false →
      convertSingleValue plainDeserializer (5 + 1) src tiDate "object" none =
        (.error (.typeMismatch "Date" "an ISO-8601 string"
          (srcTypeNameForDebug src) "object"), []))) :=
  ⟨rfl, claim5_date_conversion plainDeserializer 5 tiDate "object" none rfl⟩

def tiUint8 : IScopeTypeInfo := ⟨.uint8Array, none, none, []⟩

/-- C6 counterexample: the claim says the NaN-free requirement applies only
to the floating-point variants, so the integer-width `Uint8Array` should
accept a numeric sequence containing NaN; the code's `Uint8Array` branch
performs the same `every(elem => !isNaN(elem))` check as the float branches
and throws `TypeMismatch` on `[NaN]`. -/
theorem claim6_integer_nan_counterexample :
    convertSingleValue plainDeserializer 6 (.arr [.num .nan]) tiUint8
      "object" none
    = (.error (.typeMismatch "Uint8Array" "a numeric source array" "Array"
        "object"), []) := rfl

/-- C6 as amended: for every fixed-width numeric array variant — float and
integer alike — the source must be an array whose every element passes the
coercing `!isNaN` check; then the typed buffer is built (`buildTypedElems`:
`ToNumber` for the float variants, `~~` plus width wrapping/clamping for the
integer variants); an array containing a NaN-coercing element, or any defined
non-array source, throws `TypeMismatch`. -/
theorem claim6_typed_array_conversion (d : Deserializer) (fuel : Nat)
    (k : TAKind) (ti : IScopeTypeInfo) (mn : String) (mo : Option OptionsBase)
    (hti : ti.selfConstructor = taCtor k) :
    (∀ xs, xs.all (fun e => !jsIsNaN e) = true →
      convertSingleValue d (fuel + 1) (.arr xs) ti mn mo =
        (.ok (.typedArr k (buildTypedElems k xs)), []))
    ∧ (∀ xs, xs.all (fun e => !jsIsNaN e) = false →
      convertSingleValue d (fuel + 1) (.arr xs) ti mn mo =
        (.error (.typeMismatch (taName k) "a numeric source array"
          (srcTypeNameForDebug (.arr xs)) mn), []))
    ∧ (∀ src, isValueDefined src = true → isArrValue src = false →
      convertSingleValue d (fuel + 1) src ti mn mo =
        (.error (.typeMismatch (taName k) "a numeric source array"
          (srcTypeNameForDebug src) mn), [])) := by
  refine ⟨?_, ?_, ?_⟩
  · intro xs hall
    cases k <;>
      simp_all [convertSingleValue, convs, singleBody, hti, taCtor, taName,
        typedArrayConvert, isDirectlyDeserializableNativeType, isNullValue,
        isValueDefined]
  · intro xs hall
    cases k <;>
      simp_all [convertSingleValue, convs, singleBody, hti, taCtor, taName,
        typedArrayConvert, isDirectlyDeserializableNativeType, isNullValue,
        isValueDefined]
  · intro src hdef harr
    cases k <;> cases src <;>
      simp_all [convertSingleValue, convs, singleBody, hti, taCtor, taName,
        typedArrayConvert, isDirectlyDeserializableNativeType, isNullValue,
        isValueDefined, isArrValue, jsTypeof]

/-- C6 as amended, witnessed at the `Uint16Array` variant. -/
theorem claim6_typed_array_conversion_witness :
    (IScopeTypeInfo.selfConstructor ⟨.uint16Array, none, none, []⟩ =
      taCtor .u16) ∧
    ((∀ xs, xs.all (fun e => !jsIsNaN e) = true →
      convertSingleValue plainDeserializer (5 + 1) (.arr xs)
          ⟨.uint16Array, none, none, []⟩ "object" none =
        (.ok (.typedArr .u16 (buildTypedElems .u16 xs)), []))
    ∧ (∀ xs, xs.all (fun e => !jsIsNaN e) = false →
      convertSingleValue plainDeserializer (5 + 1) (.arr xs)
          ⟨.uint16Array, none, none, []⟩ "object" none =
        (.error (.typeMismatch (taName .u16) "a numeric source array"
          (srcTypeNameForDebug (.arr xs)) "object"), []))
    ∧ (∀ src, isValueDefined src = true → isArrValue src = false →
      convertSingleValue plainDeserializer (5 + 1) src
          ⟨.uint16Array, none, none, []⟩ "object" none =
        (.error (.typeMismatch (taName .u16) "a numeric source array"
          (srcTypeNameForDebug src) "object"), []))) :=
  ⟨rfl, claim6_typed_array_conversion plainDeserializer 5 .u16
    ⟨.uint16Array, none, none, []⟩ "object" none rfl⟩

/-- C8 counterexample: the claim says each of the three policy setters
validates callability and raises `InvalidCallback` for a non-callable
argument, leaving the previous policy in place; `setNameResolver` has no such
guard — handed the non-callable value `5` it succeeds and installs it,
replacing the previous name resolver. -/
theorem claim8_name_resolver_unchecked_counterexample :
    setNameResolver plainDeserializer (.notCallable (.num (.int 5))) =
      .ok { plainDeserializer with
              nameResolver := some (.notCallable (.num (.int 5))) } := rfl

/-- C8 as amended: the type-hint-resolver and error-handler setters validate
that their argument is callable and raise `InvalidCallback` (a thrown
`TypeError`, before any assignment — so the previously installed policy
stays in place) when handed a non-callable; the name-resolver setter performs
no validation and installs whatever it is handed, non-callables included. -/
theorem claim8_setter_validation (d : Deserializer) :
    (∀ v, setTypeResolver d (.notCallable v) =
      .error (.invalidCallback "typeResolverCallback"))
    ∧ (∀ v, setErrorHandler d (.notCallable v) =
      .error (.invalidCallback "errorHandlerCallback"))
    ∧ (∀ cb, setNameResolver d cb = .ok { d with nameResolver := some cb }) :=
  ⟨fun _ => rfl, fun _ => rfl, fun _ => rfl⟩

/-- C9 counterexample: the claim quantifies over *every* non-array source,
but a JS `Set` is a non-array source whose `forEach` is a function:
`convertAsMap` on an empty `Set` reports the type error to the handler, then
iterates the Set's (zero) elements and returns an empty map — it does not
throw out of the call. -/
theorem claim9_set_source_counterexample :
    convertAsMap plainDeserializer 6 (.setVal []) tiStringNumberMap "m" none =
      (.ok (.mapVal []), [.genericMismatch "Array" "Set" "m"]) := rfl

/-- C9 as amended: for every non-array source that has a constructor and no
`forEach` method (which is every JSON-derived non-array: plain objects,
strings, numbers, booleans — but not `Set`/`Map` instances, which are
iterated, nor null/undefined, whose constructor read throws before the
report), `convertAsMap` reports the Array type error to the error handler
and does *not* return early: it goes on to call `forEach` on the source and
throws, whereas `convertAsArray` and `convertAsSet` return an empty container
immediately after reporting the same error. -/
theorem claim9_map_nonarray_throws (d : Deserializer) (fuel : Nat)
    (src : Value) (ti : IScopeTypeInfo) (mn : String) (mo : Option OptionsBase)
    (c kc e0 : Ctor) (eRest : List Ctor)
    (hc : ctorOfValue src = some c) (hfe : jsForEachable src = none)
    (hkc : ti.keyConstructor = some kc)
    (hec : ti.elementConstructor = some (e0 :: eRest)) :
    convertAsMap d (fuel + 1) src ti mn mo =
      (.error (.jsTypeError "sourceObject.forEach is not a function"),
        [.genericMismatch "Array" (ctorName c) mn])
    ∧ convertAsArray d (fuel + 1) src ti mn mo =
      (.ok (.arr []), [.genericMismatch "Array" (ctorName c) mn])
    ∧ convertAsSet d (fuel + 1) src ti mn mo =
      (.ok (.setVal []), [.genericMismatch "Array" (ctorName c) mn]) := by
  cases src <;>
    simp_all [convertAsMap, convertAsArray, convertAsSet, convs, asMapBody,
      asArrayBody, asSetBody, hkc, hec, jsForEachable, ctorOfValue]

/-- C9 as amended, witnessed on a plain-object source. -/
theorem claim9_map_nonarray_throws_witness :
    (ctorOfValue (.obj none []) = some Ctor.object) ∧
    (jsForEachable (.obj none []) = none) ∧
    (convertAsMap plainDeserializer (5 + 1) (.obj none []) tiStringNumberMap
        "m" none =
      (.error (.jsTypeError "sourceObject.forEach is not a function"),
        [.genericMismatch "Array" (ctorName .object) "m"])
    ∧ convertAsArray plainDeserializer (5 + 1) (.obj none []) tiStringNumberMap
        "m" none =
      (.ok (.arr []), [.genericMismatch "Array" (ctorName .object) "m"])
    ∧ convertAsSet plainDeserializer (5 + 1) (.obj none []) tiStringNumberMap
        "m" none =
      (.ok (.setVal []), [.genericMismatch "Array" (ctorName .object) "m"])) :=
  ⟨rfl, rfl, claim9_map_nonarray_throws plainDeserializer 5 (.obj none [])
    tiStringNumberMap "m" none .object .string .number [] rfl rfl rfl rfl⟩

/-- The untyped-passthrough condition of `convertAsObject`: the expected
constructor's registry entry is absent or not explicitly marked. -/
def passthroughApplies (d : Deserializer) (c : Ctor) : Bool :=
  match d.registry c with
  | some m => !m.isExplicitlyMarked
  | none => true

/-- C10: in the untyped-passthrough branch (expected type without explicitly
registered metadata), the engine reads `sourceObject[key].constructor` for
each own property; whenever some own property holds null or undefined the
call throws a TypeError out of `convertAsObject` (the first conjunct: the
result is an `Except.error` — either the constructor-read TypeError at that
property or a TypeError an earlier property's conversion threw — never a
returned plain object; in this model every thrown `JSErr` stands for a
TypeError), and when the offending property comes first the thrown error is
exactly the constructor-read TypeError (second conjunct).  Passthrough can
only return a plain result object when every own property value is defined
and non-null. -/
theorem claim10_passthrough_null_property (d : Deserializer) (fuel : Nat) (oc : Option ClassCtor)
    (fields : List (String × Value)) (ti : IScopeTypeInfo) (mn : String)
    (mo : Option OptionsBase) (k0 : String) (v0 : Value)
    (hres : ∀ kt, d.typeResolver (.obj oc fields) kt = none)
    (hp : passthroughApplies d ti.selfConstructor = true) :
    ((k0, v0) ∈ fields → isValueDefined v0 = false →
      ∃ e, (convertAsObject d fuel (.obj oc fields) ti mn mo).1 =
        Except.error e)
    ∧ (∀ rest kts, scopeKnownTypes d ti.selfConstructor ti.knownTypes = .ok kts →
      fields = (k0, v0) :: rest → isValueDefined v0 = false →
      (convertAsObject d (fuel + 1) (.obj oc fields) ti mn mo).1 =
        .error (.jsTypeError ("Cannot read properties of " ++
          jsDisplayString v0 ++ " (reading constructor)"))) := by
  constructor
  · intro hmem hv
    cases fuel with
    | zero => exact ⟨.outOfFuel, rfl⟩
    | succ n =>
      simp only [convertAsObject, convs, asObjectBody, jsTypeof, isNullValue,
        bne_self_eq_false, Bool.or_false, if_false, Bool.false_eq_true,
        if_neg, objOwnFields]
      cases hk : scopeKnownTypes d ti.selfConstructor ti.knownTypes with
      | error e => exact ⟨e, by simp [hk]⟩
      | ok kts =>
        simp only [resolveHint, hres kts]
        cases hr : d.registry ti.selfConstructor with
        | none =>
          simp only [hr]
          obtain ⟨e, he⟩ := passthroughFold_error
            (fun sourceKey c v => (convs d n).single v
              ⟨c, ti.elementConstructor, ti.keyConstructor, ti.knownTypes⟩
              sourceKey none) fields [] k0 v0 hmem hv
          refine ⟨e, ?_⟩
          cases hpf : passthroughFold
            (fun sourceKey c v => (convs d n).single v
              ⟨c, ti.elementConstructor, ti.keyConstructor, ti.knownTypes⟩
              sourceKey none) fields [] with
          | mk r log =>
            rw [hpf] at he
            cases r with
            | error e2 => simpa using he
            | ok t => simp at he
        | some m =>
          have hm : m.isExplicitlyMarked = false := by
            have h1 := hp
            unfold passthroughApplies at h1
            rw [hr] at h1
            simpa using h1
          simp only [hr, hm]
          obtain ⟨e, he⟩ := passthroughFold_error
            (fun sourceKey c v => (convs d n).single v
              ⟨c, ti.elementConstructor, ti.keyConstructor, ti.knownTypes⟩
              sourceKey none) fields [] k0 v0 hmem hv
          refine ⟨e, ?_⟩
          cases hpf : passthroughFold
            (fun sourceKey c v => (convs d n).single v
              ⟨c, ti.elementConstructor, ti.keyConstructor, ti.knownTypes⟩
              sourceKey none) fields [] with
          | mk r log =>
            rw [hpf] at he
            cases r with
            | error e2 => simpa using he
            | ok t => simp at he
  · intro rest kts hk hf hv
    subst hf
    simp only [convertAsObject, convs, asObjectBody, jsTypeof, isNullValue,
      bne_self_eq_false, Bool.or_false, if_false, Bool.false_eq_true, if_neg,
      objOwnFields, hk]
    simp only [resolveHint, hres kts]
    have hctor : ctorOfValue v0 = none := ctorOfValue_none_of_undefined hv
    cases hr : d.registry ti.selfConstructor with
    | none => simp [hr, passthroughFold, hctor]
    | some m =>
      have hm : m.isExplicitlyMarked = false := by
        have h1 := hp
        unfold passthroughApplies at h1
        rw [hr] at h1
        simpa using h1
      simp [hr, hm, passthroughFold, hctor]

/-- C10, witnessed on the plain object `{y: null, x: 1}` (the null-valued
property first, so the second conjunct is exercised non-vacuously too). -/
theorem claim10_passthrough_null_property_witness :
    (passthroughApplies plainDeserializer Ctor.object = true) ∧
    (((("y", Value.null) ∈ [("y", Value.null), ("x", Value.num (.int 1))]) →
      isValueDefined Value.null = false →
      ∃ e, (convertAsObject plainDeserializer 5
        (.obj none [("y", .null), ("x", .num (.int 1))])
        ⟨.object, none, none, []⟩ "object" none).1 = Except.error e)
    ∧ (∀ rest kts,
      scopeKnownTypes plainDeserializer
        (IScopeTypeInfo.selfConstructor ⟨.object, none, none, []⟩)
        (IScopeTypeInfo.knownTypes ⟨.object, none, none, []⟩) = .ok kts →
      ([("y", Value.null), ("x", Value.num (.int 1))] : List (String × Value))
        = ("y", Value.null) :: rest →
      isValueDefined Value.null = false →
      (convertAsObject plainDeserializer (5 + 1)
        (.obj none [("y", .null), ("x", .num (.int 1))])
        ⟨.object, none, none, []⟩ "object" none).1 =
        .error (.jsTypeError ("Cannot read properties of " ++
          jsDisplayString Value.null ++ " (reading constructor)")))) :=
  ⟨rfl, claim10_passthrough_null_property plainDeserializer 5 none
    [("y", .null), ("x", .num (.int 1))] ⟨.object, none, none, []⟩ "object"
    none "y" .null (fun _ => rfl) rfl⟩
